import Mathlib

/-!
A shallow embedding of the moto KMS response layer (`moto/kms/responses.py`)
together with a model of the in-memory KMS backend it drives.  The response
layer is translated directly from the source; the backend (`moto/kms/models.py`,
whose code is not part of this development's sources) is modelled from the
specification, and every such definition is marked `Modelled from the spec:`.

Byte strings are modelled as lists of naturals, python strings as `String`,
and the JSON/base64/HTTP framing of the adapter is elided: operations take the
already-decoded primitive parameters and return the structured result or the
raised exception, exactly in the order the source computes them.
-/

set_option autoImplicit false

/-- Byte sequences (python `bytes`), one natural per byte. -/
abbrev Bytes := List Nat

/-- An encryption context: python passes either `None` or a string-to-string
mapping; the mapping is modelled as an association list. -/
abbrev EncCtx := Option (List (String × String))

/-- Character-list prefix test (python `str.startswith`). -/
def leadsWith : List Char → List Char → Bool
  | [], _ => true
  | _ :: _, [] => false
  | p :: ps, c :: cs => p == c && leadsWith ps cs

/-- Substring test (python `needle in haystack`, for a nonempty needle). -/
def hasSub (needle : List Char) : List Char → Bool
  | [] => needle.isEmpty
  | c :: cs => leadsWith needle (c :: cs) || hasSub needle cs

/-- Split a character list on a separator character (python `str.split(sep)`):
always returns at least one (possibly empty) group. -/
def splitOnChar (sep : Char) : List Char → List (List Char)
  | [] => [[]]
  | c :: cs =>
    if c == sep then [] :: splitOnChar sep cs
    else
      match splitOnChar sep cs with
      | g :: gs => (c :: g) :: gs
      | [] => [[c]]

/-- Last group of a split (python `str.split(sep)[-1]`). -/
def lastSeg (sep : Char) (cs : List Char) : List Char :=
  (splitOnChar sep cs).getLastD []

/-- `re.match(r'^P$', s)` for a total pattern `P` over the whole string:
either `P` matches all of `s`, or `s` ends in a newline and `P` matches all
of `s` but that final newline (python's `$` also matches just before a
trailing newline). -/
def re_fullmatch (p : List Char → Bool) (s : String) : Bool :=
  let cs := s.toList
  p cs ||
    (match cs.getLast? with
     | some c => c == '\n' && p cs.dropLast
     | none => false)

/-- Hexadecimal digit, either case (the key-id pattern is compiled with
`re.IGNORECASE`). -/
def hexChar (c : Char) : Bool :=
  ('0' ≤ c && c ≤ '9') || ('a' ≤ c && c ≤ 'f') || ('A' ≤ c && c ≤ 'F')

/-- Core of the canonical key-id pattern
`[A-F0-9]{8}-[A-F0-9]{4}-[A-F0-9]{4}-[A-F0-9]{4}-[A-F0-9]{12}`:
five hyphen-separated hex groups of lengths 8-4-4-4-12. -/
def key_id_core (cs : List Char) : Bool :=
  match splitOnChar '-' cs with
  | [g1, g2, g3, g4, g5] =>
    (g1.length == 8 && g2.length == 4 && g3.length == 4 &&
     g4.length == 4 && g5.length == 12) &&
    (g1.all hexChar && g2.all hexChar && g3.all hexChar &&
     g4.all hexChar && g5.all hexChar)
  | _ => false

/-- The shape test of `_assert_valid_key_id`. -/
def valid_key_id (key_id : String) : Bool :=
  re_fullmatch key_id_core key_id

/-- Character class of the alias-name pattern `[a-zA-Z0-9:/_-]`. -/
def aliasChar (c : Char) : Bool :=
  ('a' ≤ c && c ≤ 'z') || ('A' ≤ c && c ≤ 'Z') || ('0' ≤ c && c ≤ '9') ||
    c == ':' || c == '/' || c == '_' || c == '-'

/-- Core of the alias-name pattern `[a-zA-Z0-9:/_-]+`. -/
def alias_core (cs : List Char) : Bool :=
  !cs.isEmpty && cs.all aliasChar

/-- `_parse_key_id`: when the reference looks like an ARN (contains the
substring `arn`), keep the segment after the last colon, then the segment
after the last slash; otherwise return it unchanged. -/
def parse_key_id (key_id : String) : String :=
  if hasSub "arn".toList key_id.toList then
    String.mk (lastSeg '/' (lastSeg ':' key_id.toList))
  else
    key_id

/-- The module-level `reserved_aliases` list. -/
def reserved_aliases : List String :=
  ["alias/aws/ebs", "alias/aws/s3", "alias/aws/redshift", "alias/aws/rds"]

/-- A key record of the registry. -/
structure Key where
  id : String
  policy : Option String
  key_usage : Option String
  description : Option String
  rotation_enabled : Bool
  region : String
  deriving DecidableEq, Repr

/-- A ciphertext blob.  Modelled from the spec: the envelope binds the source
key identifier, the plaintext and the encryption context supplied at encrypt
time; any byte sequence that does not parse as such an envelope (malformed or
foreign ciphertext) is `raw`. -/
inductive Blob where
  | envelope (key_id : String) (plaintext : Bytes) (context : EncCtx)
  | raw (bytes : Bytes)
  deriving DecidableEq, Repr

/-- The per-region backend state: the key registry and the alias index
(target key id to registered alias names). -/
structure KmsState where
  keys : List Key
  aliases : List (String × List String)
  deriving DecidableEq, Repr

/-- The empty backend state a fresh region starts from. -/
def initState : KmsState := ⟨[], []⟩

/-- The typed failures the response layer raises (python exception kinds,
with the `__type` and message of the raised body).  `http404empty` is the
`describe_key` path that returns an empty JSON object with HTTP status 404
instead of raising. -/
inductive KmsError where
  | validationException (message : String)
  | notAuthorizedException
  | alreadyExistsException (message : String)
  | notFoundException (message : String)
  | invalidCiphertextException (message : String)
  | http404empty
  deriving DecidableEq, Repr

namespace KmsBackend

/-- Registry lookup by exact key id. -/
def key_lookup (key_id : String) (s : KmsState) : Option Key :=
  s.keys.find? (fun k => k.id == key_id)

/-- Rewrite one key of the registry in place. -/
def update_key (key_id : String) (f : Key → Key) (s : KmsState) : KmsState :=
  { s with keys := s.keys.map (fun k => if k.id == key_id then f k else k) }

/-- Modelled from the spec: `create_key` (models.py) generates a fresh
identifier, stores the key with rotation disabled and never fails.  The fresh
identifier is taken as an argument (`new_id`), standing for the generator. -/
def create_key (policy key_usage description : Option String)
    (region new_id : String) (s : KmsState) : Key × KmsState :=
  let k : Key :=
    { id := new_id, policy := policy, key_usage := key_usage,
      description := description, rotation_enabled := false, region := region }
  (k, { s with keys := s.keys ++ [k] })

/-- Modelled from the spec: backend `describe_key` (models.py) accepts a bare
identifier or an ARN-form string, resolves it to the trailing identifier
portion first, and looks the result up in the registry. -/
def describe_key (key_id : String) (s : KmsState) : Option Key :=
  key_lookup (parse_key_id key_id) s

/-- Modelled from the spec: `alias_exists` (models.py) is true exactly when
the name is registered in the alias index. -/
def alias_exists (alias_name : String) (s : KmsState) : Bool :=
  s.aliases.any (fun p => p.2.contains alias_name)

/-- Modelled from the spec: `add_alias` (models.py) records the name under
the target, assuming the caller already validated. -/
def add_alias (target_key_id alias_name : String) (s : KmsState) : KmsState :=
  if s.aliases.any (fun p => p.1 == target_key_id) then
    let f := fun (p : String × List String) =>
      if p.1 == target_key_id then (p.1, p.2 ++ [alias_name]) else p
    { s with aliases := s.aliases.map f }
  else
    { s with aliases := s.aliases ++ [(target_key_id, [alias_name])] }

/-- Modelled from the spec: `delete_alias` (models.py) removes the mapping;
the caller checked existence first. -/
def delete_alias (alias_name : String) (s : KmsState) : KmsState :=
  { s with aliases := s.aliases.map (fun p => (p.1, p.2.filter (fun n => n ≠ alias_name))) }

/-- Modelled from the spec: `get_all_aliases` (models.py) returns the
target-to-names mapping. -/
def get_all_aliases (s : KmsState) : List (String × List String) :=
  s.aliases

/-- Modelled from the spec: toggles the rotation flag; `none` stands for the
`KeyError` raised when the key id is absent. -/
def enable_key_rotation (key_id : String) (s : KmsState) : Option KmsState :=
  (key_lookup key_id s).map
    (fun _ => update_key key_id (fun k => { k with rotation_enabled := true }) s)

/-- Modelled from the spec: see `enable_key_rotation`. -/
def disable_key_rotation (key_id : String) (s : KmsState) : Option KmsState :=
  (key_lookup key_id s).map
    (fun _ => update_key key_id (fun k => { k with rotation_enabled := false }) s)

/-- Modelled from the spec: reads the rotation flag; `none` is the `KeyError`
for an absent key. -/
def get_key_rotation_status (key_id : String) (s : KmsState) : Option Bool :=
  (key_lookup key_id s).map (fun k => k.rotation_enabled)

/-- Modelled from the spec: replaces the key's (sole) policy document;
`none` is the `KeyError` for an absent key. -/
def put_key_policy (key_id : String) (policy : Option String) (s : KmsState) :
    Option KmsState :=
  (key_lookup key_id s).map
    (fun _ => update_key key_id (fun k => { k with policy := policy }) s)

/-- Modelled from the spec: reads the key's policy document; `none` is the
`KeyError` for an absent key. -/
def get_key_policy (key_id : String) (s : KmsState) : Option (Option String) :=
  (key_lookup key_id s).map (fun k => k.policy)

/-- Modelled from the spec: backend `encrypt` (models.py) resolves the key
reference (accepting ARN form) to the canonical identifier first and builds a
reversible envelope binding that identifier, the plaintext and the
encryption context; it returns the resolved identifier with the blob and does
not consult the registry. -/
def encrypt (key_id : String) (plaintext : Bytes) (encryption_context : EncCtx) :
    String × Blob :=
  (parse_key_id key_id, Blob.envelope (parse_key_id key_id) plaintext encryption_context)

/-- Modelled from the spec: backend `decrypt` (models.py) recovers the bound
key identifier and plaintext when the blob is a well-formed envelope and the
supplied context equals the one bound at encrypt time; `none` stands for the
`KeyError` raised on malformed, foreign or context-mismatched ciphertext. -/
def decrypt (ciphertext : Blob) (encryption_context : EncCtx) :
    Option (String × Bytes) :=
  match ciphertext with
  | Blob.envelope k p c0 => if encryption_context = c0 then some (k, p) else none
  | Blob.raw _ => none

/-- Modelled from the spec: the fresh data-key bytes.  Randomness is replaced
by a deterministic byte source; no claim depends on the byte values. -/
def gen_bytes (n : Nat) : Bytes :=
  (List.range n).map (fun i => i % 256)

/-- Modelled from the spec: the data-key length is the requested byte count,
or the length implied by the key spec when the byte count is absent. -/
def data_key_length (key_spec : Option String) (number_of_bytes : Option Nat) : Nat :=
  match number_of_bytes with
  | some n => n
  | none =>
    match key_spec with
    | some "AES_256" => 32
    | some "AES_128" => 16
    | _ => 0

/-- Modelled from the spec: backend `generate_data_key` (models.py) draws
fresh bytes of the requested length and wraps them with the same transform as
`encrypt`, returning the plaintext bytes, the resolved key identifier and the
ciphertext blob. -/
def generate_data_key (key_id : String) (key_spec : Option String)
    (number_of_bytes : Option Nat) (encryption_context : EncCtx) :
    Bytes × String × Blob :=
  let plaintext := gen_bytes (data_key_length key_spec number_of_bytes)
  let r := encrypt key_id plaintext encryption_context
  (plaintext, r.1, r.2)

end KmsBackend

/-- One entry of a `list_aliases` response. -/
structure AliasEntry where
  alias_arn : String
  alias_name : String
  target_key_id : Option String
  deriving DecidableEq, Repr

/-- The alias ARN string built by the response layer. -/
def alias_arn_of (region name : String) : String :=
  "arn:aws:kms:" ++ region ++ ":012345678912:" ++ name

/-- The result record of `generate_data_key` (the JSON body's
`CiphertextBlob`, `KeyId` and `Plaintext` fields). -/
structure GdkResult where
  ciphertext_blob : Blob
  key_id : String
  plaintext : Bytes
  deriving DecidableEq, Repr

/-- The error `_assert_valid_key_id` raises (note the leading space of the
source's message). -/
def invalid_key_id_error : KmsError :=
  KmsError.notFoundException " Invalid keyId"

/-- The `KeyError` handler message of the rotation and policy operations
(the source quotes the ARN; the quote characters are elided here). -/
def key_not_found_message (region key_id : String) : String :=
  "Key arn:aws:kms:" ++ region ++ ":012345678912:key/" ++ key_id ++ " does not exist"

/-- The body of the `InvalidCiphertextException` raised by `decrypt`. -/
def invalid_ciphertext_error : KmsError :=
  KmsError.invalidCiphertextException
    "The specified ciphertext has been corrupted or is otherwise invalid."

namespace KmsResponse

/-- `KmsResponse.describe_key`: no shape validation; the backend lookup's
`KeyError` becomes an empty JSON object with HTTP status 404. -/
def describe_key (key_id : String) (s : KmsState) : Except KmsError Key :=
  match KmsBackend.describe_key key_id s with
  | some key => Except.ok key
  | none => Except.error KmsError.http404empty

/-- `KmsResponse.create_key`: delegates to the backend; never fails.  The
fresh identifier argument stands for the backend's generator. -/
def create_key (policy key_usage description : Option String)
    (region new_id : String) (s : KmsState) : Key × KmsState :=
  KmsBackend.create_key policy key_usage description region new_id s

/-- `KmsResponse.create_alias`: the six validation steps of the source, in
source order, each returning its raised error with the state unchanged; only
when all pass is the alias stored. -/
def create_alias (region alias_name target_key_id : String) (s : KmsState) :
    Except KmsError Unit × KmsState :=
  if !leadsWith "alias/".toList alias_name.toList then
    (Except.error (KmsError.validationException "Invalid identifier"), s)
  else if reserved_aliases.contains alias_name then
    (Except.error KmsError.notAuthorizedException, s)
  else if alias_name.toList.contains ':' then
    (Except.error (KmsError.validationException
      (alias_name ++ " contains invalid characters for an alias")), s)
  else if !re_fullmatch alias_core alias_name then
    (Except.error (KmsError.validationException
      ("1 validation error detected: Value " ++ alias_name ++
       " at aliasName failed to satisfy constraint: Member must satisfy regular expression pattern: ^[a-zA-Z0-9:/_-]+$")), s)
  else if KmsBackend.alias_exists target_key_id s then
    (Except.error (KmsError.validationException
      "Aliases must refer to keys. Not aliases"), s)
  else if KmsBackend.alias_exists alias_name s then
    (Except.error (KmsError.alreadyExistsException
      ("An alias with the name arn:aws:kms:" ++ region ++ ":012345678912:" ++
       alias_name ++ " already exists")), s)
  else
    (Except.ok (), KmsBackend.add_alias target_key_id alias_name s)

/-- `KmsResponse.delete_alias`: prefix check, then existence check, then the
deletion. -/
def delete_alias (region alias_name : String) (s : KmsState) :
    Except KmsError Unit × KmsState :=
  if !leadsWith "alias/".toList alias_name.toList then
    (Except.error (KmsError.validationException "Invalid identifier"), s)
  else if !KmsBackend.alias_exists alias_name s then
    (Except.error (KmsError.notFoundException
      ("Alias arn:aws:kms:" ++ region ++ ":012345678912:" ++ alias_name ++
       " is not found.")), s)
  else
    (Except.ok (), KmsBackend.delete_alias alias_name s)

/-- `KmsResponse.list_aliases`: the four reserved aliases first (no target),
then every entry of the alias index. -/
def list_aliases (region : String) (s : KmsState) : List AliasEntry :=
  (reserved_aliases.map (fun r => AliasEntry.mk (alias_arn_of region r) r none)) ++
    (KmsBackend.get_all_aliases s).flatMap
      (fun p => p.2.map (fun n => AliasEntry.mk (alias_arn_of region n) n (some p.1)))

/-- `KmsResponse.enable_key_rotation`: shape check, then backend call with
the `KeyError` handler. -/
def enable_key_rotation (region key_id : String) (s : KmsState) :
    Except KmsError Unit × KmsState :=
  if !valid_key_id key_id then
    (Except.error invalid_key_id_error, s)
  else
    match KmsBackend.enable_key_rotation key_id s with
    | some s2 => (Except.ok (), s2)
    | none =>
      (Except.error (KmsError.notFoundException (key_not_found_message region key_id)), s)

/-- `KmsResponse.disable_key_rotation`: shape check, then backend call with
the `KeyError` handler. -/
def disable_key_rotation (region key_id : String) (s : KmsState) :
    Except KmsError Unit × KmsState :=
  if !valid_key_id key_id then
    (Except.error invalid_key_id_error, s)
  else
    match KmsBackend.disable_key_rotation key_id s with
    | some s2 => (Except.ok (), s2)
    | none =>
      (Except.error (KmsError.notFoundException (key_not_found_message region key_id)), s)

/-- `KmsResponse.get_key_rotation_status`: shape check, then backend read. -/
def get_key_rotation_status (region key_id : String) (s : KmsState) :
    Except KmsError Bool :=
  if !valid_key_id key_id then
    Except.error invalid_key_id_error
  else
    match KmsBackend.get_key_rotation_status key_id s with
    | some b => Except.ok b
    | none =>
      Except.error (KmsError.notFoundException (key_not_found_message region key_id))

/-- `KmsResponse.put_key_policy`: key-id shape check, then the policy-name
check, then the backend write with the `KeyError` handler. -/
def put_key_policy (region key_id policy_name : String) (policy : Option String)
    (s : KmsState) : Except KmsError Unit × KmsState :=
  if !valid_key_id key_id then
    (Except.error invalid_key_id_error, s)
  else if policy_name ≠ "default" then
    (Except.error (KmsError.notFoundException "No such policy exists"), s)
  else
    match KmsBackend.put_key_policy key_id policy s with
    | some s2 => (Except.ok (), s2)
    | none =>
      (Except.error (KmsError.notFoundException (key_not_found_message region key_id)), s)

/-- `KmsResponse.get_key_policy`: key-id shape check, then the policy-name
check, then the backend read. -/
def get_key_policy (region key_id policy_name : String) (s : KmsState) :
    Except KmsError (Option String) :=
  if !valid_key_id key_id then
    Except.error invalid_key_id_error
  else if policy_name ≠ "default" then
    Except.error (KmsError.notFoundException "No such policy exists")
  else
    match KmsBackend.get_key_policy key_id s with
    | some p => Except.ok p
    | none =>
      Except.error (KmsError.notFoundException (key_not_found_message region key_id))

/-- `KmsResponse.list_key_policies`: key-id shape check, an existence probe
through the backend's `describe_key`, then the constant singleton list. -/
def list_key_policies (region key_id : String) (s : KmsState) :
    Except KmsError (List String) :=
  if !valid_key_id key_id then
    Except.error invalid_key_id_error
  else
    match KmsBackend.describe_key key_id s with
    | some _ => Except.ok ["default"]
    | none =>
      Except.error (KmsError.notFoundException (key_not_found_message region key_id))

/-- `KmsResponse.encrypt`: resolves the reference, checks the shape of the
resolved identifier, then calls the backend transform with the original
reference; returns the backend's key id with the blob. -/
def encrypt (key_id : String) (plaintext : Bytes) (encryption_context : EncCtx)
    (_s : KmsState) : Except KmsError (String × Blob) :=
  let parsed_key_id := parse_key_id key_id
  if !valid_key_id parsed_key_id then
    Except.error invalid_key_id_error
  else
    let r := KmsBackend.encrypt key_id plaintext encryption_context
    Except.ok (r.1, r.2)

/-- `KmsResponse.decrypt`: the backend's `KeyError` becomes the dedicated
`InvalidCiphertextException`. -/
def decrypt (ciphertext : Blob) (encryption_context : EncCtx) (_s : KmsState) :
    Except KmsError (String × Bytes) :=
  match KmsBackend.decrypt ciphertext encryption_context with
  | some r => Except.ok r
  | none => Except.error invalid_ciphertext_error

/-- `KmsResponse.generate_data_key`: resolves and shape-checks the reference,
calls the backend, discards the backend's key id (the `__` of the source) and
answers with the caller's `key_id` verbatim. -/
def generate_data_key (key_id : String) (key_spec : Option String)
    (number_of_bytes : Option Nat) (encryption_context : EncCtx) (_s : KmsState) :
    Except KmsError GdkResult :=
  let parsed_key_id := parse_key_id key_id
  if !valid_key_id parsed_key_id then
    Except.error invalid_key_id_error
  else
    let r := KmsBackend.generate_data_key key_id key_spec number_of_bytes encryption_context
    Except.ok (GdkResult.mk r.2.2 key_id r.1)

end KmsResponse

/-- No reserved alias name is stored in the alias index. -/
def no_reserved_stored (s : KmsState) : Bool :=
  s.aliases.all (fun p => p.2.all (fun n => !reserved_aliases.contains n))

/-- One state-mutating response operation applied with arbitrary arguments
(the read-only operations do not touch the state). -/
inductive KmsStep : KmsState → KmsState → Prop where
  | create_key (policy key_usage description : Option String)
      (region new_id : String) (s : KmsState) :
      KmsStep s (KmsResponse.create_key policy key_usage description region new_id s).2
  | create_alias (region alias_name target_key_id : String) (s : KmsState) :
      KmsStep s (KmsResponse.create_alias region alias_name target_key_id s).2
  | delete_alias (region alias_name : String) (s : KmsState) :
      KmsStep s (KmsResponse.delete_alias region alias_name s).2
  | enable_key_rotation (region key_id : String) (s : KmsState) :
      KmsStep s (KmsResponse.enable_key_rotation region key_id s).2
  | disable_key_rotation (region key_id : String) (s : KmsState) :
      KmsStep s (KmsResponse.disable_key_rotation region key_id s).2
  | put_key_policy (region key_id policy_name : String) (policy : Option String)
      (s : KmsState) :
      KmsStep s (KmsResponse.put_key_policy region key_id policy_name policy s).2

/-- States reachable from the fresh-region state by response operations. -/
inductive Reachable : KmsState → Prop where
  | init : Reachable initState
  | step {s s2 : KmsState} : Reachable s → KmsStep s s2 → Reachable s2

theorem no_reserved_stored_iff (s : KmsState) :
    no_reserved_stored s = true ↔
      ∀ p ∈ s.aliases, ∀ n ∈ p.2, reserved_aliases.contains n = false := by
  simp [no_reserved_stored, List.all_eq_true]

theorem no_reserved_stored_add_alias (target_key_id alias_name : String)
    (s : KmsState) (hres : reserved_aliases.contains alias_name = false)
    (h : no_reserved_stored s = true) :
    no_reserved_stored (KmsBackend.add_alias target_key_id alias_name s) = true := by
  rw [no_reserved_stored_iff] at h ⊢
  unfold KmsBackend.add_alias
  split
  · intro p hp n hn
    simp only [List.mem_map] at hp
    obtain ⟨q, hq, hfq⟩ := hp
    by_cases ht : q.1 == target_key_id
    · simp only [ht, if_pos] at hfq
      subst hfq
      simp only [List.mem_append, List.mem_singleton] at hn
      cases hn with
      | inl hn => exact h q hq n hn
      | inr hn => subst hn; exact hres
    · simp only [ht, if_neg, Bool.false_eq_true, not_false_iff] at hfq
      subst hfq
      exact h q hq n hn
  · intro p hp n hn
    simp only [List.mem_append, List.mem_singleton] at hp
    cases hp with
    | inl hp => exact h p hp n hn
    | inr hp =>
      subst hp
      simp only [List.mem_singleton] at hn
      subst hn
      exact hres

theorem no_reserved_stored_delete_alias (alias_name : String) (s : KmsState)
    (h : no_reserved_stored s = true) :
    no_reserved_stored (KmsBackend.delete_alias alias_name s) = true := by
  rw [no_reserved_stored_iff] at h ⊢
  unfold KmsBackend.delete_alias
  intro p hp n hn
  simp only [List.mem_map] at hp
  obtain ⟨q, hq, hfq⟩ := hp
  subst hfq
  simp only [List.mem_filter] at hn
  exact h q hq n hn.1

theorem no_reserved_stored_update_key (key_id : String) (f : Key → Key)
    (s : KmsState) (h : no_reserved_stored s = true) :
    no_reserved_stored (KmsBackend.update_key key_id f s) = true := h

/-- Every state-mutating operation preserves the reserved-alias invariant. -/
theorem no_reserved_stored_step {s s2 : KmsState} (hstep : KmsStep s s2)
    (h : no_reserved_stored s = true) : no_reserved_stored s2 = true := by
  cases hstep with
  | create_key policy key_usage description region new_id s =>
    exact h
  | create_alias region alias_name target_key_id s =>
    unfold KmsResponse.create_alias
    split
    · exact h
    · split
      · exact h
      · split
        · exact h
        · split
          · exact h
          · split
            · exact h
            · split
              · exact h
              · rename_i h1 h2 h3 h4 h5 h6
                exact no_reserved_stored_add_alias _ _ _ (by simpa using h2) h
  | delete_alias region alias_name s =>
    unfold KmsResponse.delete_alias
    split
    · exact h
    · split
      · exact h
      · exact no_reserved_stored_delete_alias _ _ h
  | enable_key_rotation region key_id s =>
    unfold KmsResponse.enable_key_rotation
    split
    · exact h
    · unfold KmsBackend.enable_key_rotation
      cases hk : KmsBackend.key_lookup key_id s <;> simp [hk, Option.map]
      · exact h
      · exact no_reserved_stored_update_key _ _ _ h
  | disable_key_rotation region key_id s =>
    unfold KmsResponse.disable_key_rotation
    split
    · exact h
    · unfold KmsBackend.disable_key_rotation
      cases hk : KmsBackend.key_lookup key_id s <;> simp [hk, Option.map]
      · exact h
      · exact no_reserved_stored_update_key _ _ _ h
  | put_key_policy region key_id policy_name policy s =>
    unfold KmsResponse.put_key_policy
    split
    · exact h
    · split
      · exact h
      · unfold KmsBackend.put_key_policy
        cases hk : KmsBackend.key_lookup key_id s <;> simp [hk, Option.map]
        · exact h
        · exact no_reserved_stored_update_key _ _ _ h

/-- The reserved-alias invariant holds in every reachable state. -/
theorem reserved_never_stored {s : KmsState} (h : Reachable s) :
    no_reserved_stored s = true := by
  induction h with
  | init => decide
  | step _ hstep ih => exact no_reserved_stored_step hstep ih

/-- C1: for every key reference, plaintext and encryption context, decrypting
the ciphertext produced by `encrypt` with the same context yields the resolved
key id together with the plaintext, and decrypting it with any different
context fails with `InvalidCiphertextException`. -/
theorem c1_encrypt_decrypt_roundtrip (key_id : String) (p : Bytes) (c c2 : EncCtx)
    (s : KmsState) (hvalid : valid_key_id (parse_key_id key_id) = true)
    (hne : c2 ≠ c) :
    KmsResponse.encrypt key_id p c s =
      Except.ok (parse_key_id key_id, Blob.envelope (parse_key_id key_id) p c) ∧
    KmsResponse.decrypt (Blob.envelope (parse_key_id key_id) p c) c s =
      Except.ok (parse_key_id key_id, p) ∧
    KmsResponse.decrypt (Blob.envelope (parse_key_id key_id) p c) c2 s =
      Except.error invalid_ciphertext_error := by
  refine ⟨?_, ?_, ?_⟩
  · simp [KmsResponse.encrypt, hvalid, KmsBackend.encrypt]
  · simp [KmsResponse.decrypt, KmsBackend.decrypt]
  · simp [KmsResponse.decrypt, KmsBackend.decrypt, hne]

/-- C1 witness: a concrete round trip with context mismatch on a fresh
region. -/
theorem c1_encrypt_decrypt_roundtrip_witness :
    KmsResponse.encrypt "01234567-0123-0123-0123-0123456789ab" [104, 105]
        (some [("ctx", "a")]) initState =
      Except.ok (parse_key_id "01234567-0123-0123-0123-0123456789ab",
        Blob.envelope (parse_key_id "01234567-0123-0123-0123-0123456789ab")
          [104, 105] (some [("ctx", "a")])) ∧
    KmsResponse.decrypt
        (Blob.envelope (parse_key_id "01234567-0123-0123-0123-0123456789ab")
          [104, 105] (some [("ctx", "a")])) (some [("ctx", "a")]) initState =
      Except.ok (parse_key_id "01234567-0123-0123-0123-0123456789ab", [104, 105]) ∧
    KmsResponse.decrypt
        (Blob.envelope (parse_key_id "01234567-0123-0123-0123-0123456789ab")
          [104, 105] (some [("ctx", "a")])) (some [("ctx", "b")]) initState =
      Except.error invalid_ciphertext_error :=
  c1_encrypt_decrypt_roundtrip "01234567-0123-0123-0123-0123456789ab"
    [104, 105] (some [("ctx", "a")]) (some [("ctx", "b")]) initState
    (by decide) (by decide)

/-- C5: every failure of `decrypt` is the dedicated
`InvalidCiphertextException`: the backend's rejection (malformed, foreign or
context-mismatched ciphertext) maps to it, raw byte blobs and mismatched
contexts fail with it, and no failing outcome is anything else (in particular
never a NotFound). -/
theorem c5_decrypt_failure_taxonomy (b : Blob) (c : EncCtx) (s : KmsState) :
    (KmsBackend.decrypt b c = none →
       KmsResponse.decrypt b c s = Except.error invalid_ciphertext_error) ∧
    (∀ bytes, KmsResponse.decrypt (Blob.raw bytes) c s =
       Except.error invalid_ciphertext_error) ∧
    (∀ k p c0, c ≠ c0 →
       KmsResponse.decrypt (Blob.envelope k p c0) c s =
         Except.error invalid_ciphertext_error) ∧
    (∀ e, KmsResponse.decrypt b c s = Except.error e →
       e = invalid_ciphertext_error) := by
  refine ⟨?_, ?_, ?_, ?_⟩
  · intro hnone
    simp [KmsResponse.decrypt, hnone]
  · intro bytes
    simp [KmsResponse.decrypt, KmsBackend.decrypt]
  · intro k p c0 hne
    simp [KmsResponse.decrypt, KmsBackend.decrypt, hne]
  · intro e he
    unfold KmsResponse.decrypt at he
    cases hd : KmsBackend.decrypt b c with
    | some r => simp [hd] at he
    | none => simp [hd] at he; exact he.symm

/-- C5 witness: a context-mismatched envelope decrypts to the dedicated
invalid-ciphertext failure on a fresh region. -/
theorem c5_decrypt_failure_taxonomy_witness :
    KmsResponse.decrypt
        (Blob.envelope "01234567-0123-0123-0123-0123456789ab" [1, 2]
          (some [("ctx", "a")])) none initState =
      Except.error invalid_ciphertext_error :=
  (c5_decrypt_failure_taxonomy
      (Blob.envelope "01234567-0123-0123-0123-0123456789ab" [1, 2]
        (some [("ctx", "a")])) none initState).2.2.1
    "01234567-0123-0123-0123-0123456789ab" [1, 2] (some [("ctx", "a")])
    (by decide)

/-- C8: `encrypt` resolves the caller's key reference with `parse_key_id`
(the identity on references without the `arn` marker, the trailing identifier
segment otherwise), the shape check applies to the resolved identifier, and a
successful encryption returns the resolved identifier and binds it — not the
raw reference — into the ciphertext envelope. -/
theorem c8_encrypt_resolves_before_check (key_id : String) (p : Bytes)
    (c : EncCtx) (s : KmsState) :
    (hasSub "arn".toList key_id.toList = false → parse_key_id key_id = key_id) ∧
    (valid_key_id (parse_key_id key_id) = true →
       KmsResponse.encrypt key_id p c s =
         Except.ok (parse_key_id key_id, Blob.envelope (parse_key_id key_id) p c)) ∧
    (valid_key_id (parse_key_id key_id) = false →
       KmsResponse.encrypt key_id p c s = Except.error invalid_key_id_error) := by
  refine ⟨?_, ?_, ?_⟩
  · intro hbare
    have hbare2 : hasSub ['a', 'r', 'n'] key_id.data = false := by
      simpa using hbare
    simp [parse_key_id, hbare2]
  · intro hvalid
    simp [KmsResponse.encrypt, hvalid, KmsBackend.encrypt]
  · intro hinvalid
    simp [KmsResponse.encrypt, hinvalid]

/-- C8 witness: an ARN-form reference is resolved to its trailing identifier
segment, which is what the successful encryption returns and embeds. -/
theorem c8_encrypt_resolves_before_check_witness :
    KmsResponse.encrypt
        "arn:aws:kms:us-east-1:012345678912:key/01234567-0123-0123-0123-0123456789ab"
        [7] none initState =
      Except.ok
        (parse_key_id
          "arn:aws:kms:us-east-1:012345678912:key/01234567-0123-0123-0123-0123456789ab",
         Blob.envelope
           (parse_key_id
             "arn:aws:kms:us-east-1:012345678912:key/01234567-0123-0123-0123-0123456789ab")
           [7] none) :=
  (c8_encrypt_resolves_before_check
      "arn:aws:kms:us-east-1:012345678912:key/01234567-0123-0123-0123-0123456789ab"
      [7] none initState).2.1 (by decide)

/-- C10: the backend's `generate_data_key` answers with the resolved key
identifier, but the response layer discards it (the `__` of the source) and
the `KeyId` field of every successful result is the caller's `key_id`
argument verbatim, ARN form included. -/
theorem c10_generate_data_key_keyid_verbatim (key_id : String)
    (key_spec : Option String) (number_of_bytes : Option Nat) (c : EncCtx)
    (s : KmsState) (r : GdkResult) :
    (KmsBackend.generate_data_key key_id key_spec number_of_bytes c).2.1 =
      parse_key_id key_id ∧
    (KmsResponse.generate_data_key key_id key_spec number_of_bytes c s =
        Except.ok r → r.key_id = key_id) := by
  constructor
  · simp [KmsBackend.generate_data_key, KmsBackend.encrypt]
  · intro h
    unfold KmsResponse.generate_data_key at h
    by_cases hv : valid_key_id (parse_key_id key_id)
    · simp [hv] at h
      rw [← h]
    · simp [hv] at h

theorem create_alias_no_marker (region alias_name target_key_id : String)
    (s : KmsState) (h1 : leadsWith "alias/".toList alias_name.toList = false) :
    KmsResponse.create_alias region alias_name target_key_id s =
      (Except.error (KmsError.validationException "Invalid identifier"), s) := by
  have h1x : leadsWith ['a', 'l', 'i', 'a', 's', '/'] alias_name.data = false := by
    simpa using h1
  simp [KmsResponse.create_alias, h1x]

theorem create_alias_reserved (region alias_name target_key_id : String)
    (s : KmsState) (h1 : leadsWith "alias/".toList alias_name.toList = true)
    (h2 : reserved_aliases.contains alias_name = true) :
    KmsResponse.create_alias region alias_name target_key_id s =
      (Except.error KmsError.notAuthorizedException, s) := by
  have h1x : leadsWith ['a', 'l', 'i', 'a', 's', '/'] alias_name.data = true := by
    simpa using h1
  have h2x : alias_name ∈ reserved_aliases := by simpa using h2
  simp [KmsResponse.create_alias, h1x, h2x]

theorem create_alias_colon (region alias_name target_key_id : String)
    (s : KmsState) (h1 : leadsWith "alias/".toList alias_name.toList = true)
    (h2 : reserved_aliases.contains alias_name = false)
    (h3 : alias_name.toList.contains ':' = true) :
    KmsResponse.create_alias region alias_name target_key_id s =
      (Except.error (KmsError.validationException
        (alias_name ++ " contains invalid characters for an alias")), s) := by
  have h1x : leadsWith ['a', 'l', 'i', 'a', 's', '/'] alias_name.data = true := by
    simpa using h1
  have h2x : alias_name ∉ reserved_aliases := by simpa using h2
  have h3x : ':' ∈ alias_name.data := by simpa using h3
  simp [KmsResponse.create_alias, h1x, h2x, h3x]

theorem create_alias_charclass (region alias_name target_key_id : String)
    (s : KmsState) (h1 : leadsWith "alias/".toList alias_name.toList = true)
    (h2 : reserved_aliases.contains alias_name = false)
    (h3 : alias_name.toList.contains ':' = false)
    (h4 : re_fullmatch alias_core alias_name = false) :
    KmsResponse.create_alias region alias_name target_key_id s =
      (Except.error (KmsError.validationException
        ("1 validation error detected: Value " ++ alias_name ++
         " at aliasName failed to satisfy constraint: Member must satisfy regular expression pattern: ^[a-zA-Z0-9:/_-]+$")), s) := by
  have h1x : leadsWith ['a', 'l', 'i', 'a', 's', '/'] alias_name.data = true := by
    simpa using h1
  have h2x : alias_name ∉ reserved_aliases := by simpa using h2
  have h3x : ':' ∉ alias_name.data := by simpa using h3
  simp [KmsResponse.create_alias, h1x, h2x, h3x, h4]

theorem create_alias_target_is_alias (region alias_name target_key_id : String)
    (s : KmsState) (h1 : leadsWith "alias/".toList alias_name.toList = true)
    (h2 : reserved_aliases.contains alias_name = false)
    (h3 : alias_name.toList.contains ':' = false)
    (h4 : re_fullmatch alias_core alias_name = true)
    (h5 : KmsBackend.alias_exists target_key_id s = true) :
    KmsResponse.create_alias region alias_name target_key_id s =
      (Except.error (KmsError.validationException
        "Aliases must refer to keys. Not aliases"), s) := by
  have h1x : leadsWith ['a', 'l', 'i', 'a', 's', '/'] alias_name.data = true := by
    simpa using h1
  have h2x : alias_name ∉ reserved_aliases := by simpa using h2
  have h3x : ':' ∉ alias_name.data := by simpa using h3
  simp [KmsResponse.create_alias, h1x, h2x, h3x, h4, h5]

theorem create_alias_already_exists (region alias_name target_key_id : String)
    (s : KmsState) (h1 : leadsWith "alias/".toList alias_name.toList = true)
    (h2 : reserved_aliases.contains alias_name = false)
    (h3 : alias_name.toList.contains ':' = false)
    (h4 : re_fullmatch alias_core alias_name = true)
    (h5 : KmsBackend.alias_exists target_key_id s = false)
    (h6 : KmsBackend.alias_exists alias_name s = true) :
    KmsResponse.create_alias region alias_name target_key_id s =
      (Except.error (KmsError.alreadyExistsException
        ("An alias with the name arn:aws:kms:" ++ region ++ ":012345678912:" ++
         alias_name ++ " already exists")), s) := by
  have h1x : leadsWith ['a', 'l', 'i', 'a', 's', '/'] alias_name.data = true := by
    simpa using h1
  have h2x : alias_name ∉ reserved_aliases := by simpa using h2
  have h3x : ':' ∉ alias_name.data := by simpa using h3
  simp [KmsResponse.create_alias, h1x, h2x, h3x, h4, h5, h6]

theorem create_alias_success (region alias_name target_key_id : String)
    (s : KmsState) (h1 : leadsWith "alias/".toList alias_name.toList = true)
    (h2 : reserved_aliases.contains alias_name = false)
    (h3 : alias_name.toList.contains ':' = false)
    (h4 : re_fullmatch alias_core alias_name = true)
    (h5 : KmsBackend.alias_exists target_key_id s = false)
    (h6 : KmsBackend.alias_exists alias_name s = false) :
    KmsResponse.create_alias region alias_name target_key_id s =
      (Except.ok (), KmsBackend.add_alias target_key_id alias_name s) := by
  have h1x : leadsWith ['a', 'l', 'i', 'a', 's', '/'] alias_name.data = true := by
    simpa using h1
  have h2x : alias_name ∉ reserved_aliases := by simpa using h2
  have h3x : ':' ∉ alias_name.data := by simpa using h3
  simp [KmsResponse.create_alias, h1x, h2x, h3x, h4, h5, h6]

/-- C2 counterexample: on the empty-registry state, the target
`00112233-4455-6677-8899-aabbccddeeff` is not a key of the registry (and not
an alias), yet `create_alias` succeeds instead of failing at step (5) with an
invalid-argument error — the fifth check does not verify that the target is a
real key. -/
theorem c2_counterexample_no_real_key_check :
    KmsBackend.key_lookup "00112233-4455-6677-8899-aabbccddeeff" initState = none ∧
    (KmsResponse.create_alias "us-east-1" "alias/my-alias"
        "00112233-4455-6677-8899-aabbccddeeff" initState).1 = Except.ok () :=
  ⟨rfl, rfl⟩

/-- C2 (amended): `create_alias` performs its validations in exactly the
stated order, stopping at the first failure — (1) marker prefix, else
invalid-argument; (2) reserved name, else not-authorized; (3) colon, else
invalid-argument; (4) character class, else invalid-argument; (5) the target
is **not itself a registered alias** (no check that it is a real key), else
invalid-argument; (6) name not already registered, else already-exists — and
only when all pass is the alias stored.  Each failing step answers the same
way whatever the later conditions are, and leaves the state unchanged. -/
theorem c2_create_alias_validation_order (region alias_name target_key_id : String)
    (s : KmsState) :
    (leadsWith "alias/".toList alias_name.toList = false →
       KmsResponse.create_alias region alias_name target_key_id s =
         (Except.error (KmsError.validationException "Invalid identifier"), s)) ∧
    (leadsWith "alias/".toList alias_name.toList = true →
     reserved_aliases.contains alias_name = true →
       KmsResponse.create_alias region alias_name target_key_id s =
         (Except.error KmsError.notAuthorizedException, s)) ∧
    (leadsWith "alias/".toList alias_name.toList = true →
     reserved_aliases.contains alias_name = false →
     alias_name.toList.contains ':' = true →
       KmsResponse.create_alias region alias_name target_key_id s =
         (Except.error (KmsError.validationException
           (alias_name ++ " contains invalid characters for an alias")), s)) ∧
    (leadsWith "alias/".toList alias_name.toList = true →
     reserved_aliases.contains alias_name = false →
     alias_name.toList.contains ':' = false →
     re_fullmatch alias_core alias_name = false →
       KmsResponse.create_alias region alias_name target_key_id s =
         (Except.error (KmsError.validationException
           ("1 validation error detected: Value " ++ alias_name ++
            " at aliasName failed to satisfy constraint: Member must satisfy regular expression pattern: ^[a-zA-Z0-9:/_-]+$")), s)) ∧
    (leadsWith "alias/".toList alias_name.toList = true →
     reserved_aliases.contains alias_name = false →
     alias_name.toList.contains ':' = false →
     re_fullmatch alias_core alias_name = true →
     KmsBackend.alias_exists target_key_id s = true →
       KmsResponse.create_alias region alias_name target_key_id s =
         (Except.error (KmsError.validationException
           "Aliases must refer to keys. Not aliases"), s)) ∧
    (leadsWith "alias/".toList alias_name.toList = true →
     reserved_aliases.contains alias_name = false →
     alias_name.toList.contains ':' = false →
     re_fullmatch alias_core alias_name = true →
     KmsBackend.alias_exists target_key_id s = false →
     KmsBackend.alias_exists alias_name s = true →
       KmsResponse.create_alias region alias_name target_key_id s =
         (Except.error (KmsError.alreadyExistsException
           ("An alias with the name arn:aws:kms:" ++ region ++ ":012345678912:" ++
            alias_name ++ " already exists")), s)) ∧
    (leadsWith "alias/".toList alias_name.toList = true →
     reserved_aliases.contains alias_name = false →
     alias_name.toList.contains ':' = false →
     re_fullmatch alias_core alias_name = true →
     KmsBackend.alias_exists target_key_id s = false →
     KmsBackend.alias_exists alias_name s = false →
       KmsResponse.create_alias region alias_name target_key_id s =
         (Except.ok (), KmsBackend.add_alias target_key_id alias_name s)) := by
  refine ⟨?_, ?_, ?_, ?_, ?_, ?_, ?_⟩
  · exact fun h1 => create_alias_no_marker region alias_name target_key_id s h1
  · exact fun h1 h2 => create_alias_reserved region alias_name target_key_id s h1 h2
  · exact fun h1 h2 h3 => create_alias_colon region alias_name target_key_id s h1 h2 h3
  · exact fun h1 h2 h3 h4 =>
      create_alias_charclass region alias_name target_key_id s h1 h2 h3 h4
  · exact fun h1 h2 h3 h4 h5 =>
      create_alias_target_is_alias region alias_name target_key_id s h1 h2 h3 h4 h5
  · exact fun h1 h2 h3 h4 h5 h6 =>
      create_alias_already_exists region alias_name target_key_id s h1 h2 h3 h4 h5 h6
  · exact fun h1 h2 h3 h4 h5 h6 =>
      create_alias_success region alias_name target_key_id s h1 h2 h3 h4 h5 h6

/-- C2 witness: the reserved-name failure fires second — here the name is
reserved *and* already registered in the index, and the outcome is the
not-authorized error of step (2), not the already-exists error of step (6). -/
theorem c2_create_alias_validation_order_witness :
    KmsResponse.create_alias "us-east-1" "alias/aws/s3" "k1"
        (KmsState.mk [] [("k1", ["alias/aws/s3"])]) =
      (Except.error KmsError.notAuthorizedException,
       KmsState.mk [] [("k1", ["alias/aws/s3"])]) :=
  (c2_create_alias_validation_order "us-east-1" "alias/aws/s3" "k1"
      (KmsState.mk [] [("k1", ["alias/aws/s3"])])).2.1 (by decide) (by decide)

/-- C9: `create_alias` never fails with a NotFound, and once the name passes
the shape, reserved-name and registration checks and the target is not a
registered alias name, the call succeeds and stores the mapping — no check
that the target is an existing key is ever made (the state is arbitrary, in
particular its registry may be empty). -/
theorem c9_create_alias_without_target_key (region alias_name target_key_id : String)
    (s : KmsState) :
    (∀ m, (KmsResponse.create_alias region alias_name target_key_id s).1 ≠
       Except.error (KmsError.notFoundException m)) ∧
    (leadsWith "alias/".toList alias_name.toList = true →
     reserved_aliases.contains alias_name = false →
     alias_name.toList.contains ':' = false →
     re_fullmatch alias_core alias_name = true →
     KmsBackend.alias_exists target_key_id s = false →
     KmsBackend.alias_exists alias_name s = false →
       KmsResponse.create_alias region alias_name target_key_id s =
         (Except.ok (), KmsBackend.add_alias target_key_id alias_name s)) := by
  constructor
  · intro m
    unfold KmsResponse.create_alias
    repeat' split
    all_goals simp
  · exact fun h1 h2 h3 h4 h5 h6 =>
      create_alias_success region alias_name target_key_id s h1 h2 h3 h4 h5 h6

/-- C9 witness: on a fresh region with an empty key registry, an alias for a
never-created key id is stored successfully. -/
theorem c9_create_alias_without_target_key_witness :
    KmsResponse.create_alias "eu-west-1" "alias/orphan" "deadbeef-dead-beef-dead-beefdeadbeef"
        initState =
      (Except.ok (),
       KmsBackend.add_alias "deadbeef-dead-beef-dead-beefdeadbeef" "alias/orphan"
         initState) :=
  (c9_create_alias_without_target_key "eu-west-1" "alias/orphan"
      "deadbeef-dead-beef-dead-beefdeadbeef" initState).2
    (by decide) (by decide) (by decide) (by decide) (by decide) (by decide)

/-- C3 counterexample: `describe_key` does not check the canonical identifier
shape before the lookup — an ARN-form identifier, which fails the shape test,
is resolved and looked up, and the call succeeds instead of failing NotFound
when the resolved key exists. -/
theorem c3_counterexample_describe_key_no_shape_check :
    valid_key_id
        "arn:aws:kms:us-east-1:012345678912:key/00112233-4455-6677-8899-001122334455" =
      false ∧
    KmsResponse.describe_key
        "arn:aws:kms:us-east-1:012345678912:key/00112233-4455-6677-8899-001122334455"
        (KmsState.mk
          [Key.mk "00112233-4455-6677-8899-001122334455" (some "policy-doc")
            (some "ENCRYPT_DECRYPT") none false "us-east-1"] []) =
      Except.ok
        (Key.mk "00112233-4455-6677-8899-001122334455" (some "policy-doc")
          (some "ENCRYPT_DECRYPT") none false "us-east-1") :=
  ⟨by decide, rfl⟩

/-- C3 (amended): of the nine operations, the eight other than `describe_key`
check the canonical identifier shape before any registry lookup — for the
rotation and policy operations on the raw identifier, for `encrypt` and
`generate_data_key` on the ARN-resolved identifier — and a malformed
identifier fails with the NotFound shape error whatever the state holds;
`describe_key` performs no shape check (it resolves and looks up directly,
accepting ARN-form references). -/
theorem c3_shape_check_before_lookup (region key_id policy_name : String)
    (policy : Option String) (p : Bytes) (c : EncCtx) (key_spec : Option String)
    (number_of_bytes : Option Nat) (s : KmsState) :
    (valid_key_id key_id = false →
       KmsResponse.enable_key_rotation region key_id s =
         (Except.error invalid_key_id_error, s) ∧
       KmsResponse.disable_key_rotation region key_id s =
         (Except.error invalid_key_id_error, s) ∧
       KmsResponse.get_key_rotation_status region key_id s =
         Except.error invalid_key_id_error ∧
       KmsResponse.put_key_policy region key_id policy_name policy s =
         (Except.error invalid_key_id_error, s) ∧
       KmsResponse.get_key_policy region key_id policy_name s =
         Except.error invalid_key_id_error ∧
       KmsResponse.list_key_policies region key_id s =
         Except.error invalid_key_id_error) ∧
    (valid_key_id (parse_key_id key_id) = false →
       KmsResponse.encrypt key_id p c s = Except.error invalid_key_id_error ∧
       KmsResponse.generate_data_key key_id key_spec number_of_bytes c s =
         Except.error invalid_key_id_error) := by
  constructor
  · intro h
    refine ⟨?_, ?_, ?_, ?_, ?_, ?_⟩
    · simp [KmsResponse.enable_key_rotation, h]
    · simp [KmsResponse.disable_key_rotation, h]
    · simp [KmsResponse.get_key_rotation_status, h]
    · simp [KmsResponse.put_key_policy, h]
    · simp [KmsResponse.get_key_policy, h]
    · simp [KmsResponse.list_key_policies, h]
  · intro h
    constructor
    · simp [KmsResponse.encrypt, h]
    · simp [KmsResponse.generate_data_key, h]

/-- C3 witness: the malformed identifier `not-a-key` fails all eight
shape-checked operations with the NotFound shape error on a fresh region. -/
theorem c3_shape_check_before_lookup_witness :
    (KmsResponse.enable_key_rotation "us-east-1" "not-a-key" initState =
       (Except.error invalid_key_id_error, initState) ∧
     KmsResponse.disable_key_rotation "us-east-1" "not-a-key" initState =
       (Except.error invalid_key_id_error, initState) ∧
     KmsResponse.get_key_rotation_status "us-east-1" "not-a-key" initState =
       Except.error invalid_key_id_error ∧
     KmsResponse.put_key_policy "us-east-1" "not-a-key" "default" (some "doc")
       initState = (Except.error invalid_key_id_error, initState) ∧
     KmsResponse.get_key_policy "us-east-1" "not-a-key" "default" initState =
       Except.error invalid_key_id_error ∧
     KmsResponse.list_key_policies "us-east-1" "not-a-key" initState =
       Except.error invalid_key_id_error) ∧
    (KmsResponse.encrypt "not-a-key" [1] none initState =
       Except.error invalid_key_id_error ∧
     KmsResponse.generate_data_key "not-a-key" none (some 1) none initState =
       Except.error invalid_key_id_error) :=
  ⟨(c3_shape_check_before_lookup "us-east-1" "not-a-key" "default" (some "doc")
      [1] none none (some 1) initState).1 (by decide),
   (c3_shape_check_before_lookup "us-east-1" "not-a-key" "default" (some "doc")
      [1] none none (some 1) initState).2 (by decide)⟩

/-- C10 witness: for an ARN-form reference, the backend answers with the
resolved bare identifier, while the successful response's `KeyId` is the ARN
the caller supplied, verbatim. -/
theorem c10_generate_data_key_keyid_verbatim_witness :
    (KmsBackend.generate_data_key
        "arn:aws:kms:ap-south-1:012345678912:key/11223344-5566-7788-99aa-bbccddeeff00"
        (some "AES_256") none none).2.1 =
      parse_key_id
        "arn:aws:kms:ap-south-1:012345678912:key/11223344-5566-7788-99aa-bbccddeeff00" ∧
    GdkResult.key_id
        (GdkResult.mk
          (Blob.envelope
            (parse_key_id
              "arn:aws:kms:ap-south-1:012345678912:key/11223344-5566-7788-99aa-bbccddeeff00")
            (KmsBackend.gen_bytes 32) none)
          "arn:aws:kms:ap-south-1:012345678912:key/11223344-5566-7788-99aa-bbccddeeff00"
          (KmsBackend.gen_bytes 32)) =
      "arn:aws:kms:ap-south-1:012345678912:key/11223344-5566-7788-99aa-bbccddeeff00" :=
  ⟨(c10_generate_data_key_keyid_verbatim
      "arn:aws:kms:ap-south-1:012345678912:key/11223344-5566-7788-99aa-bbccddeeff00"
      (some "AES_256") none none initState
      (GdkResult.mk
        (Blob.envelope
          (parse_key_id
            "arn:aws:kms:ap-south-1:012345678912:key/11223344-5566-7788-99aa-bbccddeeff00")
          (KmsBackend.gen_bytes 32) none)
        "arn:aws:kms:ap-south-1:012345678912:key/11223344-5566-7788-99aa-bbccddeeff00"
        (KmsBackend.gen_bytes 32))).1,
   (c10_generate_data_key_keyid_verbatim
      "arn:aws:kms:ap-south-1:012345678912:key/11223344-5566-7788-99aa-bbccddeeff00"
      (some "AES_256") none none initState
      (GdkResult.mk
        (Blob.envelope
          (parse_key_id
            "arn:aws:kms:ap-south-1:012345678912:key/11223344-5566-7788-99aa-bbccddeeff00")
          (KmsBackend.gen_bytes 32) none)
        "arn:aws:kms:ap-south-1:012345678912:key/11223344-5566-7788-99aa-bbccddeeff00"
        (KmsBackend.gen_bytes 32))).2 rfl⟩

/-- C4: creating a reserved alias fails not-authorized with the state
unchanged whatever the target; every reserved alias name appears among the
names listed by `list_aliases` in every state; and no reachable state ever
stores a reserved name in the alias index. -/
theorem c4_reserved_aliases_synthetic (region alias_name target_key_id : String)
    (s : KmsState) :
    (reserved_aliases.contains alias_name = true →
       KmsResponse.create_alias region alias_name target_key_id s =
         (Except.error KmsError.notAuthorizedException, s)) ∧
    (∀ r ∈ reserved_aliases,
       r ∈ (KmsResponse.list_aliases region s).map AliasEntry.alias_name) ∧
    (Reachable s → no_reserved_stored s = true) := by
  refine ⟨?_, ?_, ?_⟩
  · intro h
    have hmem : alias_name ∈ reserved_aliases := by simpa using h
    have h1 : leadsWith "alias/".toList alias_name.toList = true := by
      simp only [reserved_aliases, List.mem_cons, List.not_mem_nil, or_false] at hmem
      rcases hmem with h' | h' | h' | h' <;> subst h' <;> decide
    exact create_alias_reserved region alias_name target_key_id s h1 h
  · intro r hr
    simp only [KmsResponse.list_aliases, List.map_append, List.map_map,
      List.mem_append]
    refine Or.inl ?_
    simp only [List.mem_map, Function.comp]
    exact ⟨r, hr, rfl⟩
  · exact fun h => reserved_never_stored h

/-- C4 witness: a concrete reserved alias is refused on the fresh region,
which satisfies the invariant and lists all four reserved names. -/
theorem c4_reserved_aliases_synthetic_witness :
    KmsResponse.create_alias "us-east-1" "alias/aws/rds"
        "11111111-2222-3333-4444-555555555555" initState =
      (Except.error KmsError.notAuthorizedException, initState) :=
  (c4_reserved_aliases_synthetic "us-east-1" "alias/aws/rds"
      "11111111-2222-3333-4444-555555555555" initState).1 (by decide)

/-- C6: with a well-formed key id and a key present, any policy name other
than `default` makes `get_key_policy` and `put_key_policy` fail with the
no-such-policy NotFound (state untouched), while `list_key_policies` answers
exactly the singleton `default`. -/
theorem c6_default_policy_only (region key_id policy_name : String)
    (policy : Option String) (s : KmsState)
    (hvalid : valid_key_id key_id = true)
    (hkey : (KmsBackend.describe_key key_id s).isSome = true)
    (hname : policy_name ≠ "default") :
    KmsResponse.get_key_policy region key_id policy_name s =
      Except.error (KmsError.notFoundException "No such policy exists") ∧
    KmsResponse.put_key_policy region key_id policy_name policy s =
      (Except.error (KmsError.notFoundException "No such policy exists"), s) ∧
    KmsResponse.list_key_policies region key_id s = Except.ok ["default"] := by
  refine ⟨?_, ?_, ?_⟩
  · simp [KmsResponse.get_key_policy, hvalid, hname]
  · simp [KmsResponse.put_key_policy, hvalid, hname]
  · obtain ⟨k, hk⟩ := Option.isSome_iff_exists.mp hkey
    simp [KmsResponse.list_key_policies, hvalid, hk]

/-- C6 witness: a registered key with a default policy, probed with the
policy name `other`. -/
theorem c6_default_policy_only_witness :
    KmsResponse.get_key_policy "us-east-1" "abcdef01-2345-6789-abcd-ef0123456789"
        "other"
        (KmsState.mk
          [Key.mk "abcdef01-2345-6789-abcd-ef0123456789" (some "default-doc")
            none none false "us-east-1"] []) =
      Except.error (KmsError.notFoundException "No such policy exists") ∧
    KmsResponse.put_key_policy "us-east-1" "abcdef01-2345-6789-abcd-ef0123456789"
        "other" (some "newdoc")
        (KmsState.mk
          [Key.mk "abcdef01-2345-6789-abcd-ef0123456789" (some "default-doc")
            none none false "us-east-1"] []) =
      (Except.error (KmsError.notFoundException "No such policy exists"),
       KmsState.mk
         [Key.mk "abcdef01-2345-6789-abcd-ef0123456789" (some "default-doc")
           none none false "us-east-1"] []) ∧
    KmsResponse.list_key_policies "us-east-1" "abcdef01-2345-6789-abcd-ef0123456789"
        (KmsState.mk
          [Key.mk "abcdef01-2345-6789-abcd-ef0123456789" (some "default-doc")
            none none false "us-east-1"] []) =
      Except.ok ["default"] :=
  c6_default_policy_only "us-east-1" "abcdef01-2345-6789-abcd-ef0123456789"
    "other" (some "newdoc")
    (KmsState.mk
      [Key.mk "abcdef01-2345-6789-abcd-ef0123456789" (some "default-doc")
        none none false "us-east-1"] [])
    (by decide) (by decide) (by decide)

/-- C7: every state-mutating response operation that fails leaves the state
exactly as it was — all validation precedes any mutation (the remaining
operations are read-only or, like `create_key`, never fail; the result type
makes each call one result or one typed failure). -/
theorem c7_no_partial_mutation_on_failure
    (region alias_name target_key_id key_id policy_name : String)
    (policy : Option String) (s : KmsState) :
    (∀ e, (KmsResponse.create_alias region alias_name target_key_id s).1 =
        Except.error e →
       (KmsResponse.create_alias region alias_name target_key_id s).2 = s) ∧
    (∀ e, (KmsResponse.delete_alias region alias_name s).1 = Except.error e →
       (KmsResponse.delete_alias region alias_name s).2 = s) ∧
    (∀ e, (KmsResponse.enable_key_rotation region key_id s).1 = Except.error e →
       (KmsResponse.enable_key_rotation region key_id s).2 = s) ∧
    (∀ e, (KmsResponse.disable_key_rotation region key_id s).1 = Except.error e →
       (KmsResponse.disable_key_rotation region key_id s).2 = s) ∧
    (∀ e, (KmsResponse.put_key_policy region key_id policy_name policy s).1 =
        Except.error e →
       (KmsResponse.put_key_policy region key_id policy_name policy s).2 = s) := by
  refine ⟨?_, ?_, ?_, ?_, ?_⟩ <;> intro e h
  · unfold KmsResponse.create_alias at h ⊢
    repeat' split at h
    all_goals simp_all
  · unfold KmsResponse.delete_alias at h ⊢
    repeat' split at h
    all_goals simp_all
  · unfold KmsResponse.enable_key_rotation at h ⊢
    repeat' split at h
    all_goals simp_all
  · unfold KmsResponse.disable_key_rotation at h ⊢
    repeat' split at h
    all_goals simp_all
  · unfold KmsResponse.put_key_policy at h ⊢
    repeat' split at h
    all_goals simp_all

/-- C7 witness: a failing `create_alias` (bad name shape) on the fresh
region leaves the state untouched. -/
theorem c7_no_partial_mutation_on_failure_witness :
    (KmsResponse.create_alias "us-west-2" "badprefix" "sometarget" initState).2 =
      initState :=
  (c7_no_partial_mutation_on_failure "us-west-2" "badprefix" "sometarget"
      "unused" "default" none initState).1
    (KmsError.validationException "Invalid identifier") rfl
